import Mathlib

/-
  Verification of the live sample-transcript aggregation and rendering pipeline
  of the inspect_ai display core.

  The Python source is shallowly embedded: pure functions become Lean
  functions, the mutable registry becomes explicit state passing (plus a tiny
  Python-list heap where aliasing matters), monotonic clock readings become
  explicit Int parameters, and fallible attribute access returns Except.
  The terminal toolkit (rich / textual) is an external collaborator: its
  renderable objects are modelled by an opaque-ish inductive and its scroll
  geometry by oracle inputs.
-/

namespace InspectAI

/-! ## Event data model

The event classes live in inspect_ai/log/_transcript.py, which is not part of
src/; only their field accesses appear in the rendering code under src/.  The
structures below are therefore modelled from the spec (section 3: Event is a
variant over the eleven kinds, each carrying kind-specific fields), with field
names taken from the accesses in
src/src/inspect_ai/_display/textual/widgets/transcript.py. -/

/-- Modelled from the spec: a chat message (role + text), as accessed by
render_message (message.role, message.text). -/
structure ChatMessage where
  role : String
  text : String
deriving DecidableEq, Repr

/-- Modelled from the spec: sample payload input is either a raw string or a
list of chat messages (render_sample_init_event branches on isinstance str). -/
inductive SampleInput where
  | str : String → SampleInput
  | messages : List ChatMessage → SampleInput
deriving DecidableEq, Repr

/-- Modelled from the spec: the dataset sample payload (input/target); the id
field is accessed by SamplesView.set_samples (sample.sample.id).
inspect_ai/dataset/_dataset.py is not part of src/. -/
structure Sample where
  id : String
  input : SampleInput
  target : String
deriving DecidableEq, Repr

/-- Modelled from the spec: SampleInitEvent carries the sample payload. -/
structure SampleInitEvent where
  sample : Sample
deriving DecidableEq, Repr

/-- Modelled from the spec: StepEvent carries an optional step type and a
name (render_step_event accesses event.type and event.name; type is
a str or None). -/
structure StepEvent where
  type : Option String
  name : String
deriving DecidableEq, Repr

/-- Modelled from the spec: model output wraps the final assistant message
(render_model_event accesses event.output.message.text). -/
structure ModelOutput where
  message : ChatMessage
deriving DecidableEq, Repr

/-- Modelled from the spec: ModelEvent carries the model name, the input
messages and the output. -/
structure ModelEvent where
  model : String
  input : List ChatMessage
  output : ModelOutput
deriving DecidableEq, Repr

/-- Modelled from the spec: a caller-supplied structured view for a tool call
(render_tool_event accesses event.view.format and event.view.content). -/
structure ToolCallView where
  format : String
  content : String
deriving DecidableEq, Repr

/-- Modelled from the spec: one element of a list-valued tool result; only
text-bearing parts (ContentText) contribute to the rendered output. -/
inductive ToolContentPart where
  | contentText : String → ToolContentPart
  | other : String → ToolContentPart
deriving DecidableEq, Repr

/-- Modelled from the spec: a tool result is either plain text or a list of
content parts (render_tool_event branches on isinstance list). -/
inductive ToolResultVal where
  | str : String → ToolResultVal
  | list : List ToolContentPart → ToolResultVal
deriving DecidableEq, Repr

/-- Modelled from the spec: ToolEvent fields accessed by render_tool_event. -/
structure ToolEvent where
  view : Option ToolCallView
  function : String
  arguments : List (String × String)
  result : ToolResultVal
deriving DecidableEq, Repr

/-- Modelled from the spec: JSON serialization is performed by the external
pydantic_core.to_json (unserializable values fall back to null); a value is
modelled by its serialized text. -/
structure JsonValue where
  serialized : String
deriving DecidableEq, Repr

/-- Modelled from the spec: SubtaskEvent fields accessed by
render_subtask_event (name, input, result). -/
structure SubtaskEvent where
  name : String
  input : List (String × String)
  result : JsonValue
deriving DecidableEq, Repr

/-- Modelled from the spec: the score record (value, optional answer,
optional explanation) accessed by render_score_event. -/
structure ScoreVal where
  value : String
  answer : Option String
  explanation : Option String
deriving DecidableEq, Repr

/-- Modelled from the spec: ScoreEvent carries the target and the score. -/
structure ScoreEvent where
  target : String
  score : ScoreVal
deriving DecidableEq, Repr

/-- Modelled from the spec: InputEvent carries terminal-formatted input text
(render_input_event accesses event.input_ansi). -/
structure InputEvent where
  input_ansi : String
deriving DecidableEq, Repr

/-- Modelled from the spec: ApprovalEvent fields accessed by
render_approval_event. -/
structure ApprovalEvent where
  approver : String
  decision : String
  explanation : String
deriving DecidableEq, Repr

/-- Modelled from the spec: Info event data is either textual (markdown
rendered) or arbitrary data (JSON rendered). -/
inductive InfoData where
  | str : String → InfoData
  | json : JsonValue → InfoData
deriving DecidableEq, Repr

/-- Modelled from the spec: InfoEvent carries the data payload. -/
structure InfoEvent where
  data : InfoData
deriving DecidableEq, Repr

/-- Modelled from the spec: the logging record carried by a LoggerEvent
(render_logger_event accesses message.level, message.name,
message.message); a missing logger name is the empty string, which is falsy
in Python exactly like None. -/
structure LoggingMessage where
  level : String
  name : String
  message : String
deriving DecidableEq, Repr

/-- Modelled from the spec: LoggerEvent wraps a logging record. -/
structure LoggerEvent where
  message : LoggingMessage
deriving DecidableEq, Repr

/-- Modelled from the spec: the error record carried by an ErrorEvent
(render_error_event accesses event.error.traceback). -/
structure ErrorVal where
  traceback : String
deriving DecidableEq, Repr

/-- Modelled from the spec: ErrorEvent wraps an error record. -/
structure ErrorEvent where
  error : ErrorVal
deriving DecidableEq, Repr

/-- The event variant (spec section 3): a tagged union over the eleven event
kinds dispatched by the _renderers table in transcript.py. -/
inductive Event where
  | sampleInit : SampleInitEvent → Event
  | step : StepEvent → Event
  | model : ModelEvent → Event
  | tool : ToolEvent → Event
  | subtask : SubtaskEvent → Event
  | score : ScoreEvent → Event
  | input : InputEvent → Event
  | approval : ApprovalEvent → Event
  | info : InfoEvent → Event
  | logger : LoggerEvent → Event
  | error : ErrorEvent → Event
deriving DecidableEq, Repr

/-! ## Renderables and the event renderer

The rich renderable objects (Text, Markdown, Group, Table, plain str) are the
external toolkit; they are modelled by an inductive that keeps exactly the
structure the rendering code in
src/src/inspect_ai/_display/textual/widgets/transcript.py builds.  Python
truthiness of a renderable matters once, at the display.content check in
TranscriptView._widgets_for_events; rich Text defines a length (empty Text is
falsy, like an empty str), while Group, Markdown and Table are plain objects
(always truthy). -/

/-- A rich renderable as built by the renderers: a plain Python str, a rich
Text, a transcript markdown block, a group, a table of rows, Text.from_ansi
output, or a transcript title separator. -/
inductive Renderable where
  | str : String → Renderable
  | text : String → Renderable
  | markdown : String → Renderable
  | group : List Renderable → Renderable
  | table : List (List Renderable) → Renderable
  | ansi : String → Renderable
  | separator : String → Renderable

/-- Python truthiness of a renderable: empty str and empty rich Text are
falsy, every other renderable used here is truthy. -/
def Renderable.isTruthy : Renderable → Bool
  | .str s => s ≠ ""
  | .text s => s ≠ ""
  | .ansi s => s ≠ ""
  | _ => true

/-- EventDisplay (transcript.py lines 89-96): title bar text plus optional
custom content, a NamedTuple with content defaulting to None. -/
structure EventDisplay where
  title : String
  content : Option Renderable := none

/-- Modelled from the spec: transcript_markdown (inspect_ai._util.transcript,
not part of src/) renders text as a markdown block. -/
def transcript_markdown (s : String) : Renderable :=
  Renderable.markdown s

/-- Modelled from the spec: transcript_separator (inspect_ai._util.transcript,
not part of src/) renders the title bar shown above an event body. -/
def transcript_separator (title : String) : Renderable :=
  Renderable.separator title

/-- Modelled from the spec: format_function_call
(inspect_ai._util.format, not part of src/) formats a call as
name(k1=v1, k2=v2, ...). -/
def format_function_call (function : String) (arguments : List (String × String)) : String :=
  function ++ "(" ++
    String.intercalate ", " (arguments.map fun kv => kv.1 ++ "=" ++ kv.2) ++ ")"

/-- render_function_call (transcript.py lines 255-257): format the call and
wrap it as a fenced python code block. -/
def render_function_call (function : String) (arguments : List (String × String)) : Renderable :=
  transcript_markdown ("```python\n" ++ format_function_call function arguments ++ "\n```\n")

/-- render_as_json (transcript.py lines 260-265): serialize (indent 2,
unserializable values fall back to null — folded into JsonValue) and wrap as
a fenced json code block. -/
def render_as_json (json : JsonValue) : Renderable :=
  transcript_markdown ("```json\n" ++ json.serialized ++ "\n```\n")

/-- render_message (transcript.py lines 268-275): bold capitalized role, a
blank Text, then the trimmed message text as markdown when non-empty (Python
truthiness of message.text). -/
def render_message (message : ChatMessage) : List Renderable :=
  [Renderable.text message.role.capitalize, Renderable.text ""] ++
    (if message.text ≠ "" then [transcript_markdown message.text.trim] else [])

/-- Modelled from the spec: messages_preceding_assistant
(inspect_ai.model._render, not part of src/) selects the preceding
non-assistant messages in original order. -/
def messages_preceding_assistant (messages : List ChatMessage) : List ChatMessage :=
  messages.takeWhile fun m => m.role ≠ "assistant"

/-- render_sample_init_event (transcript.py lines 111-132): wrap a raw string
input as a single user message, render every message, then append the target
block when the target is truthy. -/
def render_sample_init_event (event : SampleInitEvent) : EventDisplay :=
  let messages : List ChatMessage :=
    match event.sample.input with
    | .str s => [{ role := "user", text := s }]
    | .messages ms => ms
  let content : List Renderable := messages.flatMap render_message
  let content := content ++
    (if event.sample.target ≠ "" then
      [Renderable.text "", Renderable.text "Target", Renderable.text "",
       Renderable.str event.sample.target.trim]
     else [])
  { title := "sample init", content := some (Renderable.group content) }

/-- render_model_event (transcript.py lines 135-153): preceding messages each
followed by a blank Text, then the assistant message when its text is
non-empty (tool calls are deliberately not rendered here). -/
def render_model_event (event : ModelEvent) : EventDisplay :=
  let preceding := messages_preceding_assistant event.input
  let content : List Renderable :=
    preceding.flatMap fun m => render_message m ++ [Renderable.text ""]
  let content := content ++
    (if event.output.message.text ≠ "" then render_message event.output.message else [])
  { title := "model: " ++ event.model, content := some (Renderable.group content) }

/-- render_tool_event (transcript.py lines 156-181): the call is either the
caller-supplied view (markdown or raw) or a synthesized function call; the
result joins the text-bearing parts of a list result with newlines. -/
def render_tool_event (event : ToolEvent) : EventDisplay :=
  let callPart : List Renderable :=
    match event.view with
    | some v =>
      if v.format = "markdown" then [transcript_markdown v.content]
      else [Renderable.str v.content]
    | none => [render_function_call event.function event.arguments]
  let result : String :=
    match event.result with
    | .str s => s
    | .list parts =>
      String.intercalate "\n" (parts.filterMap fun p =>
        match p with
        | .contentText t => some t
        | .other _ => none)
  let content := callPart ++ [Renderable.text ""] ++ [transcript_markdown result]
  { title := "tool call", content := some (Renderable.group content) }

/-- step_title (transcript.py lines 278-279): the step type (or the word step
when the type is None or empty, via Python or-truthiness), a colon, the name. -/
def step_title (event : StepEvent) : String :=
  (match event.type with
   | some t => if t = "" then "step" else t
   | none => "step") ++ ": " ++ event.name

/-- render_solver_event (transcript.py lines 193-194): title only. -/
def render_solver_event (event : StepEvent) : EventDisplay :=
  { title := step_title event }

/-- render_scorer_event (transcript.py lines 197-198): title only. -/
def render_scorer_event (event : StepEvent) : EventDisplay :=
  { title := step_title event }

/-- render_step_event (transcript.py lines 184-190): dispatch on the step
type; every branch yields a title-only display. -/
def render_step_event (event : StepEvent) : EventDisplay :=
  if event.type = some "solver" then render_solver_event event
  else if event.type = some "scorer" then render_scorer_event event
  else { title := step_title event }

/-- render_score_event (transcript.py lines 201-212): tabular rows Target,
Answer (when truthy), Score, Explanation (when truthy). -/
def render_score_event (event : ScoreEvent) : EventDisplay :=
  let rows : List (List Renderable) :=
    [[Renderable.str "Target", Renderable.str event.target.trim]]
  let rows := rows ++
    (match event.score.answer with
     | some a => if a ≠ "" then [[Renderable.str "Answer", transcript_markdown a]] else []
     | none => [])
  let rows := rows ++ [[Renderable.str "Score", Renderable.str event.score.value.trim]]
  let rows := rows ++
    (match event.score.explanation with
     | some x => if x ≠ "" then [[Renderable.str "Explanation", transcript_markdown x]] else []
     | none => [])
  { title := "score", content := some (Renderable.table rows) }

/-- render_subtask_event (transcript.py lines 215-220): function-call
rendering of (name, input), a blank Text, then the JSON-rendered result. -/
def render_subtask_event (event : SubtaskEvent) : EventDisplay :=
  { title := "subtask: " ++ event.name,
    content := some (Renderable.group
      [render_function_call event.name event.input, Renderable.text "",
       render_as_json event.result]) }

/-- render_input_event (transcript.py lines 223-224): trimmed
terminal-formatted input text via Text.from_ansi. -/
def render_input_event (event : InputEvent) : EventDisplay :=
  { title := "input", content := some (Renderable.ansi event.input_ansi.trim) }

/-- render_approval_event (transcript.py lines 227-232): a one-element group
holding the approver/decision/explanation markup string. -/
def render_approval_event (event : ApprovalEvent) : EventDisplay :=
  { title := "approval",
    content := some (Renderable.group
      [Renderable.str ("[bold]" ++ event.approver ++ "[/bold]: " ++ event.decision ++
        " (" ++ event.explanation ++ ")")]) }

/-- render_info_event (transcript.py lines 235-240): markdown for textual
data, JSON rendering otherwise. -/
def render_info_event (event : InfoEvent) : EventDisplay :=
  match event.data with
  | .str s => { title := "info", content := some (transcript_markdown s) }
  | .json j => { title := "info", content := some (render_as_json j) }

/-- Python str.upper on the character list (String.toUpper of the standard
library is the same map over the characters but is not kernel-reducible). -/
def str_upper (s : String) : String :=
  String.mk (s.toList.map Char.toUpper)

/-- render_logger_event (transcript.py lines 243-248): upper-cased level,
then a parenthesized name segment only when the name is truthy, then the
message; the content is a plain Python str. -/
def render_logger_event (event : LoggerEvent) : EventDisplay :=
  let content := str_upper event.message.level
  let content :=
    if event.message.name ≠ "" then content ++ " ($" ++ event.message.name ++ ")"
    else content
  let content := content ++ ": " ++ event.message.message
  { title := "logger", content := some (Renderable.str content) }

/-- render_error_event (transcript.py lines 251-252): the trimmed traceback
text as a plain str. -/
def render_error_event (event : ErrorEvent) : EventDisplay :=
  { title := "error", content := some (Renderable.str event.error.traceback.trim) }

/-- render_event (transcript.py lines 99-108): dispatch over the _renderers
table (lines 284-296) by event kind; every registered renderer returns a
(truthy) EventDisplay, so each of the eleven kinds yields a display. -/
def render_event : Event → Option EventDisplay
  | .sampleInit e => some (render_sample_init_event e)
  | .step e => some (render_step_event e)
  | .model e => some (render_model_event e)
  | .tool e => some (render_tool_event e)
  | .subtask e => some (render_subtask_event e)
  | .score e => some (render_score_event e)
  | .input e => some (render_input_event e)
  | .approval e => some (render_approval_event e)
  | .info e => some (render_info_event e)
  | .logger e => some (render_logger_event e)
  | .error e => some (render_error_event e)

/-- One loop iteration of TranscriptView._widgets_for_events (transcript.py
lines 76-86): when the display and its content are truthy, emit the title
separator, the content (the Markdown code_theme assignment is styling only
and does not change the content) and a spacer Text; otherwise emit nothing. -/
def widget_group (event : Event) : List Renderable :=
  match render_event event with
  | some display =>
    match display.content with
    | some c =>
      if c.isTruthy then [transcript_separator display.title, c, Renderable.text " "]
      else []
    | none => []
  | none => []

/-- TranscriptView._widgets_for_events (transcript.py lines 76-86): the
concatenation of every event's widget group, in event order. -/
def widgets_for_events : List Event → List Renderable
  | [] => []
  | e :: rest => widget_group e ++ widgets_for_events rest

/-! ## Active samples (src/src/inspect_ai/log/_samples.py)

Monotonic clock readings are modelled as explicit Int parameters (each call
site of time.monotonic becomes an input); clock monotonicity is a hypothesis
where a claim needs it. -/

/-- Modelled from the spec: a Transcript is an append-only ordered sequence
of events owned by one sample (inspect_ai/log/_transcript.py is not part of
src/). -/
structure Transcript where
  events : List Event
deriving DecidableEq, Repr

/-- ActiveSample (_samples.py lines 12-26): the attributes assigned by
its constructor — a fresh uuid id, the monotonic started time, completed
initially None, task, model, the sample payload and the owned transcript.
These seven are the only attributes any repository code ever assigns. -/
structure ActiveSample where
  id : String
  started : Int
  completed : Option Int
  task : String
  model : String
  sample : Sample
  transcript : Transcript
deriving DecidableEq, Repr

/-- ActiveSample.execution_time (_samples.py lines 24-26):
(self.completed or monotonic()) - self.started.  Python or-truthiness: a
completed value of exactly 0 is falsy and falls through to the clock. -/
def ActiveSample.execution_time (s : ActiveSample) (now : Int) : Int :=
  (match s.completed with
   | some c => if c = 0 then now else c
   | none => now) - s.started

/-- BodyOutcome: how the work guarded by the active_sample context manager
finishes — normal return, an exception, or cancellation. -/
inductive BodyOutcome where
  | ok : BodyOutcome
  | error : String → BodyOutcome
  | cancelled : BodyOutcome
deriving DecidableEq, Repr

/-- Python list.remove on the registry (_samples.py line 40): remove the
first element equal to the argument; ActiveSample defines no custom
equality, so Python compares object identity, which the embedding models by
the uuid id field (unique per sample). -/
def remove_first_by_id : List ActiveSample → String → List ActiveSample
  | [], _ => []
  | s :: rest, i => if s.id = i then rest else s :: remove_first_by_id rest i

/-- active_sample (_samples.py lines 33-40): append the sample to the
registry; after the guarded body finishes with any outcome, the finally
block stamps completed = monotonic() on the (shared) sample object and then
removes it from the registry; the outcome then propagates unchanged.  The
result is the post-exit registry, the post-exit sample object and the
propagated outcome; t_exit is the monotonic() reading in the finally block.
The stamp is applied through the registry as well because the registry holds
the same object the finally block mutates. -/
def active_sample (reg : List ActiveSample) (s : ActiveSample)
    (outcome : BodyOutcome) (t_exit : Int) :
    List ActiveSample × ActiveSample × BodyOutcome :=
  let reg1 := reg ++ [s]
  let stamped := reg1.map fun x =>
    if x.id = s.id then { x with completed := some t_exit } else x
  let reg2 := remove_first_by_id stamped s.id
  (reg2, { s with completed := some t_exit }, outcome)

/-! ## A Python-list heap for aliasing claims

Python lists are mutable objects; whether an operation returns the registry
object itself or a copy is an aliasing fact, modelled by a tiny heap of list
cells addressed by Nat references.  Cell 0 plays the module-level
_active_samples list (_samples.py line 47). -/

/-- A heap of Python list objects holding active samples. -/
structure PyHeap where
  cells : List (List ActiveSample)
deriving DecidableEq, Repr

/-- Read the list object a reference denotes. -/
def PyHeap.deref (h : PyHeap) (r : Nat) : List ActiveSample :=
  h.cells.getD r []

/-- Allocate a fresh list object (Python list construction / .copy()). -/
def PyHeap.alloc (h : PyHeap) (v : List ActiveSample) : PyHeap × Nat :=
  (⟨h.cells ++ [v]⟩, h.cells.length)

/-- Overwrite the contents of an existing list object (in-place mutation). -/
def PyHeap.write (h : PyHeap) (r : Nat) (v : List ActiveSample) : PyHeap :=
  ⟨h.cells.set r v⟩

/-- The reference held by the module-level _active_samples variable. -/
def registry_ref : Nat := 0

/-- active_samples (_samples.py lines 43-44): return _active_samples — the
function returns the registry list object itself, performing no copy and no
heap mutation. -/
def active_samples (r_reg : Nat) : Nat := r_reg

/-- Modelled from the spec: the list operation as the spec words it —
returns a snapshot (copy semantics) of the currently active samples, i.e.
allocates a fresh list object holding the registry contents.  Stated only to
contrast with active_samples above. -/
def active_samples_spec_copy (h : PyHeap) (r_reg : Nat) : PyHeap × Nat :=
  h.alloc (h.deref r_reg)

/-- Registration into the registry (_samples.py line 35,
_active_samples.append(sample)): in-place append to the registry object. -/
def registry_append (h : PyHeap) (r_reg : Nat) (s : ActiveSample) : PyHeap :=
  h.write r_reg (h.deref r_reg ++ [s])

/-! ## Transcript view
(src/src/inspect_ai/_display/textual/widgets/transcript.py lines 38-74)

The scroll geometry (self.scroll_y, self.max_scroll_y) belongs to the
external toolkit; the view state keeps scroll_y, and the max_scroll_y values
read before the mount and established after it enter as oracle inputs.
Static is the toolkit wrapper around a renderable and is modelled as
identity; mount_all appends the new children after the existing ones. -/

/-- TranscriptView state: the focused sample (if any), the events mirrored
so far, the mounted child renderables, and the vertical scroll offset. -/
structure TranscriptView where
  sample : Option ActiveSample
  events : List Event
  children : List Renderable
  scroll_y : Int

/-- The guard of the incremental branch of sync_sample (transcript.py lines
46-50): both the incoming and the stored sample exist and their ids agree. -/
def same_focused (incoming current : Option ActiveSample) : Bool :=
  match incoming, current with
  | some s, some s0 => s.id == s0.id
  | _, _ => false

/-- TranscriptView.sync_sample (transcript.py lines 44-74).  Incremental
branch: record whether the view sat within 3 rows of the bottom, append the
transcript suffix beyond the mirrored count to the events and its rendered
widgets to the children, then scroll to the new bottom exactly when it had
been at the bottom (the stored sample object is not reassigned).  Full
resync branch: store the new focus, drop all children, mirror the whole
transcript (or nothing when unfocused) and jump to the bottom.
max_scroll_before is self.max_scroll_y read at entry; max_scroll_after is
the bottom position after the mount, where scroll_end lands. -/
def TranscriptView.sync_sample (v : TranscriptView) (incoming : Option ActiveSample)
    (max_scroll_before max_scroll_after : Int) : TranscriptView :=
  if same_focused incoming v.sample then
    match incoming with
    | some s =>
      let scrolled_to_bottom := (v.scroll_y - max_scroll_before).natAbs ≤ 3
      let append_events := s.transcript.events.drop v.events.length
      { v with
        events := v.events ++ append_events,
        children := v.children ++ widgets_for_events append_events,
        scroll_y := if scrolled_to_bottom then max_scroll_after else v.scroll_y }
    | none => v
  else
    match incoming with
    | some s =>
      { sample := some s,
        events := s.transcript.events,
        children := widgets_for_events s.transcript.events,
        scroll_y := max_scroll_after }
    | none =>
      { sample := none, events := [], children := [], scroll_y := v.scroll_y }

/-! ## Samples list view
(src/src/inspect_ai/_display/textual/widgets/samples.py lines 15-128) -/

/-- sample_index_for_id (samples.py lines 124-128): index of the first
sample with the given id, -1 when absent. -/
def sample_index_for_id : List ActiveSample → String → Int
  | [], _ => -1
  | s :: rest, i =>
    if s.id = i then 0
    else
      let k := sample_index_for_id rest i
      if k = -1 then -1 else k + 1

/-- sample_for_id (samples.py lines 116-121): the first sample with the
given id, when present. -/
def sample_for_id (samples : List ActiveSample) (i : String) : Option ActiveSample :=
  let index := sample_index_for_id samples i
  if index ≠ -1 then samples.get? index.toNat else none

/-- Sorting of self.samples (samples.py line 67): stable sort by
execution_time descending (list.sort with reverse=True). -/
def sort_by_execution_time (samples : List ActiveSample) (now : Int) : List ActiveSample :=
  samples.mergeSort fun a b =>
    decide (ActiveSample.execution_time b now ≤ ActiveSample.execution_time a now)

/-- SamplesView state: self.samples plus the OptionList highlight.  The
option list is rebuilt from self.samples on every set_samples call with one
option per sample carrying that sample's id (separators are not options), so
the highlight is modelled as an index into self.samples. -/
structure SamplesView where
  samples : List ActiveSample
  highlighted : Option Nat

/-- The id of the currently highlighted option (samples.py lines 47-52):
option_list.get_option_at_index(option_list.highlighted).id, i.e. the id of
the sample the highlighted option was built from. -/
def highlighted_option_id (v : SamplesView) : Option String :=
  v.highlighted.bind fun i => (v.samples.get? i).map ActiveSample.id

/-- Clamping performed by the toolkit when option_list.highlighted is
assigned (textual validates the reactive into the valid option range). -/
def clamp_option_index (i : Int) (count : Nat) : Nat :=
  min i.toNat (count - 1)

/-- The carried-forward append of SamplesView.set_samples (samples.py lines
62-64): when the highlighted sample exists and no element of the new
self.samples is that same object (Python membership compares object
identity, modelled by the uuid id), append it. -/
def append_carried (samples1 : List ActiveSample) :
    Option ActiveSample → List ActiveSample
  | some hs =>
    if samples1.any fun x => x.id == hs.id then samples1 else samples1 ++ [hs]
  | none => samples1

/-- The re-selection of SamplesView.set_samples (samples.py lines 96-103):
when the sorted list is non-empty, highlight the index of the previously
highlighted id (clamped into range by the toolkit), or the top entry when
nothing was highlighted; clearing the options of an empty list leaves no
highlight. -/
def rehighlight (samples3 : List ActiveSample) : Option String → Option Nat
  | some i =>
    if 0 < samples3.length then
      some (clamp_option_index (sample_index_for_id samples3 i) samples3.length)
    else none
  | none => if 0 < samples3.length then some 0 else none

/-- SamplesView.set_samples (samples.py lines 45-103), state transition.
Read the highlighted id and look up its last-known sample in the old
self.samples; replace self.samples with a copy of the snapshot; append the
carried highlighted sample when absent; sort by execution time descending;
then re-highlight. -/
def SamplesView.set_samples (v : SamplesView) (snapshot : List ActiveSample)
    (now : Int) : SamplesView :=
  let highlighted_id := highlighted_option_id v
  let highlighted_sample := highlighted_id.bind fun i => sample_for_id v.samples i
  let samples1 := snapshot
  let samples2 := append_carried samples1 highlighted_sample
  let samples3 := sort_by_execution_time samples2 now
  { samples := samples3, highlighted := rehighlight samples3 highlighted_id }

/-- The carried-forward append of SamplesView.set_samples (samples.py lines
62-64), heap view: when the highlighted sample is not already one of the
objects in self.samples (identity modelled by the uuid id), append it in
place to the self.samples object. -/
def set_samples_append_carried (h1 : PyHeap) (r_self : Nat) :
    Option ActiveSample → PyHeap
  | some hs =>
    if (h1.deref r_self).any fun x => x.id == hs.id then h1
    else h1.write r_self (h1.deref r_self ++ [hs])
  | none => h1

/-- SamplesView.set_samples, heap composition (samples.py lines 59-67): the
copy allocation, the conditional carried-forward append, then the in-place
sort, all on the fresh self.samples object. -/
def set_samples_heap (h : PyHeap) (r_arg : Nat) (carried : Option ActiveSample)
    (now : Int) : PyHeap × Nat :=
  let alloc := h.alloc (h.deref r_arg)
  let h1 := alloc.1
  let r_self := alloc.2
  let h2 := set_samples_append_carried h1 r_self carried
  let h3 := h2.write r_self (sort_by_execution_time (h2.deref r_self) now)
  (h3, r_self)

/-! ## Sample list rows (samples.py lines 70-94) -/

/-- Modelled from the spec: registry_unqualified_name
(inspect_ai._util.registry, not part of src/) yields the task display name;
the spec only says the task name is shown, so it is modelled as the name
itself. -/
def registry_unqualified_name (task : String) : String := task

/-- Two-digit zero-padded field of a clock rendering. -/
def pad2 (n : Nat) : String :=
  if n < 10 then "0" ++ toString n else toString n

/-- Modelled from the spec: progress_time renders elapsed seconds
H:MM:SS-style (the helper imported from _display/core/progress.py is not
present in the src/ copy of that file). -/
def progress_time (t : Int) : String :=
  let secs := t.toNat
  toString (secs / 3600) ++ ":" ++ pad2 ((secs / 60) % 60) ++ ":" ++ pad2 (secs % 60)

/-- Modelled from the spec: rich Text.truncate with overflow ellipsis and
padding (the toolkit is external): cut to the width with a trailing ellipsis
character, or pad to the width. -/
def truncate_with_ellipsis (width : Nat) (s : String) : String :=
  if s.length ≤ width then s ++ String.mk (List.replicate (width - s.length) ' ')
  else String.mk (s.toList.take (width - 1)) ++ "…"

/-- Attribute access sample.epoch (samples.py line 85).
ActiveSample.__init__ (_samples.py lines 13-22) assigns exactly id, started,
completed, task, model, sample and transcript, and no other repository code
assigns attributes on an ActiveSample, so reading epoch raises
AttributeError. -/
def ActiveSample.epoch_attr (_s : ActiveSample) : Except String Int :=
  Except.error "AttributeError: ActiveSample object has no attribute epoch"

/-- One list row of SamplesView.set_samples (samples.py lines 72-92), in
source evaluation order: truncated task name, elapsed time, truncated sample
id, then the epoch cell, whose attribute read decides whether the row
construction succeeds. -/
def set_samples_row (s : ActiveSample) (now : Int) : Except String (List String) := do
  let task_name := truncate_with_ellipsis 18 (registry_unqualified_name s.task)
  let task_time := progress_time (s.execution_time now)
  let sample_id := truncate_with_ellipsis 18 ("id: " ++ s.sample.id)
  let ep ← s.epoch_attr
  pure [task_name, task_time, sample_id, "epoch: " ++ toString ep]

/-! ## Progress tracker (src/src/inspect_ai/_display/core/progress.py)

Python floats are modelled as exact rationals; the 100-vs-102 discrepancy
the claims are about is independent of floating point rounding. -/

/-- PROGRESS_TOTAL (progress.py line 19): the fixed display total. -/
def PROGRESS_TOTAL : Rat := 102

/-- RichProgress display state: the underlying step count supplied at
creation and the accumulated displayed value of the rich task (created at 0
with total=PROGRESS_TOTAL). -/
structure RichProgress where
  total : Nat
  completed : Rat

/-- RichProgress.update (progress.py lines 40-47): advance the displayed
value by (n / total) * 100. -/
def RichProgress.update (p : RichProgress) (n : Nat) : RichProgress :=
  { p with completed := p.completed + ((n : Rat) / (p.total : Rat)) * 100 }

/-- RichProgress.complete (progress.py lines 49-53): snap the displayed
value to PROGRESS_TOTAL. -/
def RichProgress.complete (p : RichProgress) : RichProgress :=
  { p with completed := PROGRESS_TOTAL }

/-- k successive update(1) calls. -/
def update_iter (p : RichProgress) : Nat → RichProgress
  | 0 => p
  | k + 1 => (update_iter p k).update 1

/-! ## Concrete fixtures used by witnesses and counterexamples -/

/-- A concrete active sample as built by the constructor: fresh id, started
clock reading, completed unset. -/
def sampleA : ActiveSample :=
  { id := "a", started := 3, completed := none, task := "task", model := "m",
    sample := { id := "s1", input := SampleInput.str "hi", target := "t" },
    transcript := ⟨[]⟩ }

/-- A concrete logger event. -/
def loggerStarted : Event :=
  Event.logger ⟨⟨"INFO", "", "started"⟩⟩

/-- sampleA after its transcript has grown by one event. -/
def sampleA1 : ActiveSample :=
  { sampleA with transcript := ⟨[loggerStarted]⟩ }

/-- A transcript view focused on sampleA with nothing mirrored yet. -/
def tv0 : TranscriptView :=
  { sample := some sampleA, events := [], children := [], scroll_y := 0 }

/-! ## Theorems -/

/-- C8: every Logger event renders with title logger and body equal to the
upper-cased level, then a parenthesized name segment that is omitted exactly
when the name is absent, then a colon and the message; in particular the
event with level INFO, empty name and message started renders body exactly
INFO: started. -/
theorem C8_render_logger_event (m : LoggingMessage) :
    render_logger_event ⟨m⟩ =
      { title := "logger",
        content := some (Renderable.str
          (str_upper m.level ++
            (if m.name = "" then "" else " ($" ++ m.name ++ ")") ++
            ": " ++ m.message)) } ∧
    render_logger_event ⟨⟨"INFO", "", "started"⟩⟩ =
      { title := "logger", content := some (Renderable.str "INFO: started") } := by
  have hgen : ∀ mm : LoggingMessage,
      render_logger_event ⟨mm⟩ =
        { title := "logger",
          content := some (Renderable.str
            (str_upper mm.level ++
              (if mm.name = "" then "" else " ($" ++ mm.name ++ ")") ++
              ": " ++ mm.message)) } := by
    intro mm
    unfold render_logger_event
    by_cases h : mm.name = "" <;>
      simp [h, String.append_assoc]
  refine ⟨hgen m, ?_⟩
  rw [hgen ⟨"INFO", "", "started"⟩]
  rfl

/-- C9: an event whose rendered display carries a title but no content
yields no widgets at all in the transcript view — neither a title
separator nor a body — and every Step event renders to such a
title-only display. -/
theorem C9_title_only_no_widgets :
    (∀ (e : Event) (d : EventDisplay),
        render_event e = some d → d.content = none →
        widget_group e = [] ∧ widgets_for_events [e] = []) ∧
    (∀ st : StepEvent,
        ∃ d, render_event (Event.step st) = some d ∧ d.content = none) := by
  constructor
  · intro e d hre hc
    have hg : widget_group e = [] := by
      unfold widget_group
      rw [hre]
      simp [hc]
    exact ⟨hg, by simp [widgets_for_events, hg]⟩
  · intro st
    refine ⟨render_step_event st, rfl, ?_⟩
    unfold render_step_event render_solver_event render_scorer_event
    by_cases h1 : st.type = some "solver" <;> by_cases h2 : st.type = some "scorer" <;>
      simp [h1, h2]

/-- C9 witness: a concrete solver step event mounts no widgets. -/
theorem C9_title_only_no_widgets_witness :
    widget_group (Event.step ⟨some "solver", "plan"⟩) = [] ∧
    widgets_for_events [Event.step ⟨some "solver", "plan"⟩] = [] :=
  C9_title_only_no_widgets.1 (Event.step ⟨some "solver", "plan"⟩)
    { title := "solver: plan" } rfl rfl

/-- C5 is a code bug: building the list row for any ActiveSample raises —
the epoch cell reads an attribute ActiveSample.__init__ never assigns, so
row construction fails with AttributeError for every sample instead of
rendering the claimed epoch number. -/
theorem C5_row_construction_raises (s : ActiveSample) (now : Int) :
    set_samples_row s now =
      Except.error "AttributeError: ActiveSample object has no attribute epoch" :=
  rfl

/-- C4 fails on the code: with total = 1, a single update(1) — which is
total calls of update(1) — leaves the displayed value at (1/1) * 100 = 100,
not the fixed maximum PROGRESS_TOTAL = 102; the advance factor in
RichProgress.update is the literal 100, not PROGRESS_TOTAL. -/
theorem C4_counterexample :
    (RichProgress.update ⟨1, 0⟩ 1).completed ≠ PROGRESS_TOTAL := by
  simp only [RichProgress.update, PROGRESS_TOTAL]
  norm_num

/-- C4 amended: update(n) advances the displayed value by n/total times 100
display units (not times PROGRESS_TOTAL); consequently after total calls to
update(1) the displayed value is exactly 100, which is strictly short of
PROGRESS_TOTAL = 102, and only complete() sets the value to
PROGRESS_TOTAL. -/
theorem C4_update_reaches_hundred (total : Nat) (h : 0 < total) :
    (∀ (p : RichProgress) (n : Nat),
        (p.update n).completed = p.completed + ((n : Rat) / (p.total : Rat)) * 100) ∧
    (update_iter ⟨total, 0⟩ total).completed = 100 ∧
    (100 : Rat) ≠ PROGRESS_TOTAL ∧
    (∀ p : RichProgress, (RichProgress.complete p).completed = PROGRESS_TOTAL) := by
  have aux : ∀ k : Nat, (update_iter ⟨total, 0⟩ k).completed
        = (k : Rat) * ((1 : Rat) / (total : Rat) * 100) ∧
      (update_iter ⟨total, 0⟩ k).total = total := by
    intro k
    induction k with
    | zero => simp [update_iter]
    | succ k ih =>
      refine ⟨?_, ?_⟩
      · show ((update_iter ⟨total, 0⟩ k).update 1).completed = _
        rw [RichProgress.update]
        simp only [ih.1, ih.2]
        push_cast
        ring
      · show ((update_iter ⟨total, 0⟩ k).update 1).total = total
        rw [RichProgress.update]
        exact ih.2
  refine ⟨fun p n => rfl, ?_, by norm_num [PROGRESS_TOTAL], fun p => rfl⟩
  rw [(aux total).1]
  have htot : (total : Rat) ≠ 0 := by
    exact_mod_cast Nat.pos_iff_ne_zero.mp h
  field_simp

/-- C4 amended witness: with an underlying step count of 4, four update(1)
calls land the display exactly at 100. -/
theorem C4_update_reaches_hundred_witness :
    0 < 4 ∧ (update_iter ⟨4, 0⟩ 4).completed = 100 :=
  ⟨by decide, (C4_update_reaches_hundred 4 (by decide)).2.1⟩

/-- Stamping the exiting sample through the registry leaves entries with
other ids unchanged. -/
theorem map_stamp_of_ne (reg : List ActiveSample) (i : String) (t : Int)
    (h : ∀ x ∈ reg, x.id ≠ i) :
    (reg.map fun x => if x.id = i then { x with completed := some t } else x) = reg := by
  induction reg with
  | nil => rfl
  | cons a rest ih =>
    have ha : a.id ≠ i := h a (List.mem_cons_self a rest)
    have hr : ∀ x ∈ rest, x.id ≠ i := fun x hx => h x (List.mem_cons_of_mem a hx)
    simp [List.map_cons, if_neg ha, ih hr]

/-- Removing by id walks past entries with other ids and drops the trailing
matching entry. -/
theorem remove_first_by_id_append (reg : List ActiveSample) (s2 : ActiveSample)
    (i : String) (h : ∀ x ∈ reg, x.id ≠ i) (hs : s2.id = i) :
    remove_first_by_id (reg ++ [s2]) i = reg := by
  induction reg with
  | nil => simp [remove_first_by_id, hs]
  | cons a rest ih =>
    have ha : a.id ≠ i := h a (List.mem_cons_self a rest)
    have hr : ∀ x ∈ rest, x.id ≠ i := fun x hx => h x (List.mem_cons_of_mem a hx)
    simp [remove_first_by_id, if_neg ha, ih hr]

/-- C1: whatever the guarded work does — return, raise, or be cancelled —
the scoped acquisition exit stamps the sample's completed timestamp and
removes the sample from the registry, the outcome reaches the caller only
with the post-exit state, the registry afterwards does not contain the
sample, and (with a monotone clock) the stamped completed time is at least
the started time.  The uniqueness hypothesis is the caller guarantee from
the spec (uuid ids are unique). -/
theorem C1_scoped_acquisition (reg : List ActiveSample) (s : ActiveSample)
    (outcome : BodyOutcome) (t_exit : Int)
    (hunique : ∀ x ∈ reg, x.id ≠ s.id) (hclock : s.started ≤ t_exit) :
    (active_sample reg s outcome t_exit).1 = reg ∧
    (∀ x ∈ (active_sample reg s outcome t_exit).1, x.id ≠ s.id) ∧
    (active_sample reg s outcome t_exit).2.1.completed = some t_exit ∧
    (active_sample reg s outcome t_exit).2.2 = outcome ∧
    (∀ t, (active_sample reg s outcome t_exit).2.1.completed = some t →
      s.started ≤ t) := by
  have hreg : (active_sample reg s outcome t_exit).1 = reg := by
    show remove_first_by_id ((reg ++ [s]).map fun x =>
        if x.id = s.id then { x with completed := some t_exit } else x) s.id = reg
    rw [List.map_append, map_stamp_of_ne reg s.id t_exit hunique]
    simp only [List.map_cons, List.map_nil, if_pos rfl]
    exact remove_first_by_id_append reg _ s.id hunique rfl
  refine ⟨hreg, ?_, rfl, rfl, ?_⟩
  · rw [hreg]
    exact hunique
  · intro t ht
    have h2 : some t_exit = some t := ht
    cases h2
    exact hclock

/-- C1 witness: a sample entering an empty registry whose guarded work
raises still exits with a stamped timestamp, an empty registry and the
propagated error. -/
theorem C1_scoped_acquisition_witness :
    (active_sample [] sampleA (BodyOutcome.error "boom") 5).1 = [] ∧
    (∀ x ∈ (active_sample [] sampleA (BodyOutcome.error "boom") 5).1,
      x.id ≠ sampleA.id) ∧
    (active_sample [] sampleA (BodyOutcome.error "boom") 5).2.1.completed = some 5 ∧
    (active_sample [] sampleA (BodyOutcome.error "boom") 5).2.2 =
      BodyOutcome.error "boom" ∧
    (∀ t, (active_sample [] sampleA (BodyOutcome.error "boom") 5).2.1.completed =
      some t → sampleA.started ≤ t) :=
  C1_scoped_acquisition [] sampleA (BodyOutcome.error "boom") 5
    (by intro x hx; cases hx) (by decide)

/-- C2 fails on the code: active_samples returns the registry list object
itself (return _active_samples), not a copy, so registering a sample after
the call changes the list an earlier call returned. -/
theorem C2_counterexample :
    PyHeap.deref (registry_append ⟨[[]]⟩ registry_ref sampleA)
        (active_samples registry_ref) ≠
      PyHeap.deref ⟨[[]]⟩ (active_samples registry_ref) := by
  decide

/-- C2 amended: active_samples returns the registry's underlying list
object itself — an alias, with no copy and no allocation — so a
registration performed after the call is visible through the returned
list. -/
theorem C2_returns_alias (h : PyHeap) (s : ActiveSample)
    (hr : registry_ref < h.cells.length) :
    active_samples registry_ref = registry_ref ∧
    PyHeap.deref (registry_append h registry_ref s) (active_samples registry_ref) =
      PyHeap.deref h (active_samples registry_ref) ++ [s] := by
  refine ⟨rfl, ?_⟩
  show PyHeap.deref
      (PyHeap.write h registry_ref (PyHeap.deref h registry_ref ++ [s]))
      registry_ref = _
  unfold PyHeap.deref PyHeap.write
  rw [List.getD_eq_getElem?_getD, List.getElem?_set_self hr]
  rfl

/-- C2 amended witness: on a singleton heap holding the empty registry, the
appended sample shows up through the reference active_samples returned. -/
theorem C2_returns_alias_witness :
    registry_ref < (PyHeap.mk [[]]).cells.length ∧
    (active_samples registry_ref = registry_ref ∧
     PyHeap.deref (registry_append ⟨[[]]⟩ registry_ref sampleA)
         (active_samples registry_ref) =
       PyHeap.deref ⟨[[]]⟩ (active_samples registry_ref) ++ [sampleA]) :=
  ⟨by decide, C2_returns_alias ⟨[[]]⟩ sampleA (by decide)⟩

/-- Reading the freshly allocated end cell of the heap. -/
theorem PyHeap.deref_concat_length (cells : List (List ActiveSample))
    (x : List ActiveSample) :
    PyHeap.deref ⟨cells ++ [x]⟩ cells.length = x := by
  unfold PyHeap.deref
  rw [List.getD_eq_getElem?_getD, List.getElem?_concat_length]
  rfl

/-- Writing the freshly allocated end cell of the heap. -/
theorem PyHeap.write_concat (cells : List (List ActiveSample))
    (x w : List ActiveSample) :
    PyHeap.write ⟨cells ++ [x]⟩ cells.length w = ⟨cells ++ [w]⟩ := by
  unfold PyHeap.write
  rw [List.set_append]
  simp

/-- A cell below the end of the heap is unaffected by an extra end cell. -/
theorem PyHeap.deref_concat_lt (cells : List (List ActiveSample))
    (x : List ActiveSample) (r : Nat) (hr : r < cells.length) :
    PyHeap.deref ⟨cells ++ [x]⟩ r = PyHeap.deref ⟨cells⟩ r := by
  unfold PyHeap.deref
  rw [List.getD_eq_getElem?_getD, List.getD_eq_getElem?_getD,
    List.getElem?_append_left hr]

/-- C10: set_samples never mutates the snapshot list object passed to it —
it copies into a fresh object before the carried-forward append and the
in-place sort, so the caller's list is left exactly as it was, and the
view's own list is a different object. -/
theorem C10_snapshot_not_mutated (h : PyHeap) (r_arg : Nat)
    (carried : Option ActiveSample) (now : Int) (hr : r_arg < h.cells.length) :
    PyHeap.deref (set_samples_heap h r_arg carried now).1 r_arg =
      PyHeap.deref h r_arg ∧
    (set_samples_heap h r_arg carried now).2 ≠ r_arg := by
  have hshape : ∃ fin : List ActiveSample,
      set_samples_heap h r_arg carried now = (⟨h.cells ++ [fin]⟩, h.cells.length) := by
    cases carried with
    | none =>
      refine ⟨sort_by_execution_time (PyHeap.deref h r_arg) now, ?_⟩
      unfold set_samples_heap
      simp only [PyHeap.alloc, set_samples_append_carried,
        PyHeap.deref_concat_length, PyHeap.write_concat]
    | some hs =>
      by_cases hc : ((PyHeap.deref h r_arg).any fun x => x.id == hs.id) = true
      · refine ⟨sort_by_execution_time (PyHeap.deref h r_arg) now, ?_⟩
        unfold set_samples_heap
        simp only [PyHeap.alloc, set_samples_append_carried,
          PyHeap.deref_concat_length, hc, if_true, PyHeap.write_concat]
      · refine ⟨sort_by_execution_time (PyHeap.deref h r_arg ++ [hs]) now, ?_⟩
        unfold set_samples_heap
        simp only [PyHeap.alloc, set_samples_append_carried,
          PyHeap.deref_concat_length, hc, Bool.false_eq_true, if_false,
          PyHeap.write_concat]
  obtain ⟨fin, hfin⟩ := hshape
  rw [hfin]
  constructor
  · exact PyHeap.deref_concat_lt h.cells fin r_arg hr
  · show h.cells.length ≠ r_arg
    omega

/-- C10 witness: a concrete refresh leaves the registry object holding
exactly its previous contents while the view works on a fresh object. -/
theorem C10_snapshot_not_mutated_witness :
    0 < (PyHeap.mk [[sampleA]]).cells.length ∧
    (PyHeap.deref (set_samples_heap ⟨[[sampleA]]⟩ 0 none 10).1 0 =
       PyHeap.deref ⟨[[sampleA]]⟩ 0 ∧
     (set_samples_heap ⟨[[sampleA]]⟩ 0 none 10).2 ≠ 0) :=
  ⟨by decide, C10_snapshot_not_mutated ⟨[[sampleA]]⟩ 0 none 10 (by decide)⟩

/-- C3: syncing the same focused sample whose transcript extends the
mirrored events by a suffix appends exactly that suffix to the mirrored
events and exactly its rendered fragments after the existing children —
nothing already mounted is re-rendered, removed or reordered, and the
stored focus is untouched. -/
theorem C3_incremental_resync (v : TranscriptView) (s s0 : ActiveSample)
    (extra : List Event) (mb ma : Int)
    (hfoc : v.sample = some s0) (hid : s.id = s0.id)
    (hgrow : s.transcript.events = v.events ++ extra) :
    (v.sync_sample (some s) mb ma).events = v.events ++ extra ∧
    (v.sync_sample (some s) mb ma).children =
      v.children ++ widgets_for_events extra ∧
    (v.sync_sample (some s) mb ma).sample = some s0 := by
  have hsf : same_focused (some s) v.sample = true := by
    rw [hfoc]
    simp [same_focused, hid]
  unfold TranscriptView.sync_sample
  rw [hsf]
  refine ⟨?_, ?_, ?_⟩ <;> simp [hgrow, List.drop_left, hfoc]

/-- C3 witness: a transcript grown from zero to one event appends exactly
that event's fragments. -/
theorem C3_incremental_resync_witness :
    (tv0.sync_sample (some sampleA1) 0 5).events = tv0.events ++ [loggerStarted] ∧
    (tv0.sync_sample (some sampleA1) 0 5).children =
      tv0.children ++ widgets_for_events [loggerStarted] ∧
    (tv0.sync_sample (some sampleA1) 0 5).sample = some sampleA :=
  C3_incremental_resync tv0 sampleA1 sampleA [loggerStarted] 0 5 rfl rfl rfl

/-- C7: during an incremental resync of the same focused sample, when the
scroll offset sat within 3 rows of the bottom read before the append the
view ends scrolled to the new bottom, and otherwise the scroll offset is
left unchanged. -/
theorem C7_scroll_anchoring (v : TranscriptView) (s s0 : ActiveSample)
    (mb ma : Int) (hfoc : v.sample = some s0) (hid : s.id = s0.id) :
    ((v.scroll_y - mb).natAbs ≤ 3 →
      (v.sync_sample (some s) mb ma).scroll_y = ma) ∧
    (¬ (v.scroll_y - mb).natAbs ≤ 3 →
      (v.sync_sample (some s) mb ma).scroll_y = v.scroll_y) := by
  have hsf : same_focused (some s) v.sample = true := by
    rw [hfoc]
    simp [same_focused, hid]
  unfold TranscriptView.sync_sample
  rw [hsf]
  constructor
  · intro hb
    simp [hb]
  · intro hb
    simp [hb]

/-- C7 witness: a view two rows above the bottom follows the append to the
new bottom. -/
theorem C7_scroll_anchoring_witness :
    (tv0.scroll_y - 2).natAbs ≤ 3 ∧
    (tv0.sync_sample (some sampleA1) 2 9).scroll_y = 9 :=
  ⟨by decide, (C7_scroll_anchoring tv0 sampleA1 sampleA 2 9 rfl rfl).1 (by decide)⟩

/-- sample_index_for_id never returns anything below -1. -/
theorem sample_index_for_id_ge (l : List ActiveSample) (i : String) :
    -1 ≤ sample_index_for_id l i := by
  induction l with
  | nil => simp [sample_index_for_id]
  | cons a rest ih =>
    simp only [sample_index_for_id]
    by_cases ha : a.id = i
    · simp [ha]
    · simp only [if_neg ha]
      by_cases hk : sample_index_for_id rest i = -1
      · simp [hk]
      · simp only [if_neg hk]
        omega

/-- A non-negative result of sample_index_for_id points at a sample with
the requested id. -/
theorem sample_index_for_id_spec (l : List ActiveSample) (i : String) :
    sample_index_for_id l i = -1 ∨
    ∃ k : Nat, sample_index_for_id l i = (k : Int) ∧
      ∃ y, l.get? k = some y ∧ y.id = i := by
  induction l with
  | nil => exact Or.inl rfl
  | cons a rest ih =>
    by_cases ha : a.id = i
    · refine Or.inr ⟨0, ?_, a, rfl, ha⟩
      simp [sample_index_for_id, ha]
    · rcases ih with h1 | ⟨k, hk, y, hy, hyi⟩
      · refine Or.inl ?_
        simp [sample_index_for_id, ha, h1]
      · have hne : sample_index_for_id rest i ≠ -1 := by
          rw [hk]; omega
        refine Or.inr ⟨k + 1, ?_, y, ?_, hyi⟩
        · simp only [sample_index_for_id, if_neg ha, if_neg hne, hk]
          push_cast
          ring
        · simpa using hy

/-- A sample with the requested id in the list forces a non-negative
index. -/
theorem sample_index_for_id_mem (l : List ActiveSample) (i : String)
    (x : ActiveSample) (hx : x ∈ l) (hxi : x.id = i) :
    sample_index_for_id l i ≠ -1 := by
  induction l with
  | nil => cases hx
  | cons a rest ih =>
    by_cases ha : a.id = i
    · simp [sample_index_for_id, ha]
    · have hxr : x ∈ rest := by
        rcases List.mem_cons.mp hx with h | h
        · exact absurd (h ▸ hxi) ha
        · exact h
      have hne := ih hxr
      have hge := sample_index_for_id_ge rest i
      simp only [sample_index_for_id, if_neg ha, if_neg hne]
      omega

/-- sample_for_id returns a member carrying the requested id. -/
theorem sample_for_id_spec (l : List ActiveSample) (i : String)
    (x : ActiveSample) (hx : sample_for_id l i = some x) :
    x ∈ l ∧ x.id = i := by
  unfold sample_for_id at hx
  rcases sample_index_for_id_spec l i with h1 | ⟨k, hk, y, hy, hyi⟩
  · rw [h1] at hx
    simp at hx
  · have hne : sample_index_for_id l i ≠ -1 := by
      rw [hk]; omega
    rw [if_pos hne, hk] at hx
    rw [Int.toNat_natCast] at hx
    have hxy : some y = some x := hy.symm.trans hx
    have hxy2 : y = x := by injection hxy
    exact ⟨List.get?_mem hx, hxy2 ▸ hyi⟩

/-- With a unique carrier of the id, the index points at that very
sample. -/
theorem sample_index_for_id_unique (l : List ActiveSample) (i : String)
    (x : ActiveSample) (hx : x ∈ l) (hxi : x.id = i)
    (huniq : ∀ y ∈ l, y.id = i → y = x) :
    ∃ k : Nat, sample_index_for_id l i = (k : Int) ∧
      l.get? k = some x ∧ k < l.length := by
  rcases sample_index_for_id_spec l i with h1 | ⟨k, hk, y, hy, hyi⟩
  · exact absurd h1 (sample_index_for_id_mem l i x hx hxi)
  · have hyx : y = x := huniq y (List.get?_mem hy) hyi
    refine ⟨k, hk, hyx ▸ hy, ?_⟩
    have hg : l[k]? = some y := (List.get?_eq_getElem? l k) ▸ hy
    rcases List.getElem?_eq_some.mp hg with ⟨hlt, _⟩
    exact hlt

/-- C6: on a new snapshot, when the previously focused sample's id is
absent from the snapshot, the last-known object with that id is carried
into the displayed list and the new highlight points at exactly that
object; when the id is present, the highlight points at a snapshot sample
with that id at its sorted position — a focused sample never silently
vanishes. -/
theorem C6_focus_preservation (v : SamplesView) (snapshot : List ActiveSample)
    (now : Int) (fid : String) (hs : ActiveSample)
    (hid : highlighted_option_id v = some fid)
    (hfound : sample_for_id v.samples fid = some hs) :
    (fid ∉ snapshot.map ActiveSample.id →
      hs ∈ (v.set_samples snapshot now).samples ∧
      ∃ j, (v.set_samples snapshot now).highlighted = some j ∧
        (v.set_samples snapshot now).samples.get? j = some hs) ∧
    (fid ∈ snapshot.map ActiveSample.id →
      ∃ j s2, (v.set_samples snapshot now).highlighted = some j ∧
        (v.set_samples snapshot now).samples.get? j = some s2 ∧
        s2.id = fid ∧ s2 ∈ snapshot) := by
  have hhsid : hs.id = fid := (sample_for_id_spec v.samples fid hs hfound).2
  have hset : v.set_samples snapshot now =
      { samples := sort_by_execution_time (append_carried snapshot (some hs)) now,
        highlighted := rehighlight
          (sort_by_execution_time (append_carried snapshot (some hs)) now)
          (some fid) } := by
    unfold SamplesView.set_samples
    rw [hid]
    simp only [Option.some_bind, hfound]
  constructor
  · intro habs
    have hany : (snapshot.any fun x => x.id == hs.id) = false := by
      rw [List.any_eq_false]
      intro x hxmem hbeq
      exact habs (List.mem_map.mpr ⟨x, hxmem, by
        rw [← hhsid]; exact eq_of_beq hbeq⟩)
    have happ : append_carried snapshot (some hs) = snapshot ++ [hs] := by
      simp [append_carried, hany]
    rw [hset, happ]
    set L := sort_by_execution_time (snapshot ++ [hs]) now with hL
    have hmemL : hs ∈ L := by
      rw [hL]
      unfold sort_by_execution_time
      rw [List.mem_mergeSort]
      simp
    have huniq : ∀ y ∈ L, y.id = fid → y = hs := by
      intro y hy hyi
      have hy2 : y ∈ snapshot ++ [hs] := by
        rw [hL] at hy
        unfold sort_by_execution_time at hy
        exact List.mem_mergeSort.mp hy
      rcases List.mem_append.mp hy2 with h | h
      · exact absurd (List.mem_map.mpr ⟨y, h, hyi⟩) habs
      · simpa using h
    obtain ⟨k, hk, hget, hlt⟩ :=
      sample_index_for_id_unique L fid hs hmemL hhsid huniq
    have hlen : 0 < L.length := List.length_pos_of_mem hmemL
    have hcl : clamp_option_index ((k : Nat) : Int) L.length = k := by
      unfold clamp_option_index
      omega
    refine ⟨hmemL, k, ?_, hget⟩
    simp only [rehighlight, if_pos hlen, hk, hcl]
  · intro hpres
    obtain ⟨x, hxmem, hxid⟩ := List.mem_map.mp hpres
    have hany : (snapshot.any fun y => y.id == hs.id) = true := by
      rw [List.any_eq_true]
      exact ⟨x, hxmem, beq_iff_eq.mpr (by rw [hxid, hhsid])⟩
    have happ : append_carried snapshot (some hs) = snapshot := by
      simp [append_carried, hany]
    rw [hset, happ]
    set L := sort_by_execution_time snapshot now with hL
    have hmemx : x ∈ L := by
      rw [hL]
      unfold sort_by_execution_time
      rw [List.mem_mergeSort]
      exact hxmem
    have hne := sample_index_for_id_mem L fid x hmemx hxid
    rcases sample_index_for_id_spec L fid with h1 | ⟨k, hk, y, hy, hyi⟩
    · exact absurd h1 hne
    · have hymem : y ∈ snapshot := by
        have := List.get?_mem hy
        rw [hL] at this
        unfold sort_by_execution_time at this
        exact List.mem_mergeSort.mp this
      have hg : L[k]? = some y := (List.get?_eq_getElem? L k) ▸ hy
      have hlt : k < L.length := (List.getElem?_eq_some.mp hg).1
      have hlen : 0 < L.length := Nat.lt_of_le_of_lt (Nat.zero_le k) hlt
      have hcl : clamp_option_index ((k : Nat) : Int) L.length = k := by
        unfold clamp_option_index
        omega
      refine ⟨k, y, ?_, hy, hyi, hymem⟩
      simp only [rehighlight, if_pos hlen, hk, hcl]

/-- A samples view focused on sampleA. -/
def svA : SamplesView := { samples := [sampleA], highlighted := some 0 }

/-- C6 witness: a snapshot that no longer contains the focused sampleA
still displays it, focused. -/
theorem C6_focus_preservation_witness :
    sampleA ∈ (svA.set_samples [] 10).samples ∧
    ∃ j, (svA.set_samples [] 10).highlighted = some j ∧
      (svA.set_samples [] 10).samples.get? j = some sampleA :=
  (C6_focus_preservation svA [] 10 "a" sampleA rfl rfl).1 (by simp)

end InspectAI
